import Mathlib

/-!
Verification of the Event_App API against its specification.

The embedding models the two persisted entities (`Event`, `RSVP`) of
`models.py`, the response schemas of `schemas.py`, and the eight HTTP
handlers of `main.py` as pure functions over an explicit store state.
The relational store is a pair of row lists plus the two id sequences
(Postgres `serial` counters, starting at 1).  The media-upload provider
is an external collaborator: its outcome is passed to `create_event` as
an oracle value.  `datetime.strptime(date, "%Y-%m-%d %H:%M")` is modelled
after CPython's `_strptime` regex for that format, character by character,
including the alternation order, backtracking, the whitespace run for the
literal space, the full-match requirement, and the calendar validation done
by the `datetime` constructor.
-/

deriving instance DecidableEq for Except

namespace EventApp

/-- A calendar date-time as produced by `datetime.strptime` with the
format `%Y-%m-%d %H:%M` (seconds are always zero and are omitted). -/
structure DateTime where
  year : Nat
  month : Nat
  day : Nat
  hour : Nat
  minute : Nat
deriving DecidableEq, Repr

/-- Encoding of a date-time as a single natural number, monotone in the
lexicographic field order for in-range fields; used to model the store's
comparison of `DateTime` column values in `ORDER BY date DESC`. -/
def DateTime.encode (t : DateTime) : Nat :=
  (((t.year * 100 + t.month) * 100 + t.day) * 100 + t.hour) * 100 + t.minute

/-- Numeric value of a digit character. -/
def digitVal (c : Char) : Nat := c.toNat - 48

/-- `lo ≤ c ≤ hi` on code points, the character-class test of the regex. -/
def charBetween (c lo hi : Char) : Bool :=
  lo.toNat ≤ c.toNat && c.toNat ≤ hi.toNat

/-- Candidates for `%Y`, regex `\d\d\d\d`: exactly four digits. -/
def yearCands : List Char → List (Nat × List Char)
  | c1 :: c2 :: c3 :: c4 :: rest =>
    if c1.isDigit && c2.isDigit && c3.isDigit && c4.isDigit then
      [(((digitVal c1 * 10 + digitVal c2) * 10 + digitVal c3) * 10 + digitVal c4, rest)]
    else []
  | _ => []

/-- Candidates for `%m`, regex `1[0-2]|0[1-9]|[1-9]`, in alternation order. -/
def monthCands : List Char → List (Nat × List Char)
  | c1 :: c2 :: rest =>
    (if c1 == '1' && charBetween c2 '0' '2' then [(10 + digitVal c2, rest)] else []) ++
    (if c1 == '0' && charBetween c2 '1' '9' then [(digitVal c2, rest)] else []) ++
    (if charBetween c1 '1' '9' then [(digitVal c1, c2 :: rest)] else [])
  | [c1] => if charBetween c1 '1' '9' then [(digitVal c1, [])] else []
  | [] => []

/-- Candidates for `%d`, regex `3[0-1]|[1-2]\d|0[1-9]|[1-9]| [1-9]`,
in alternation order (the last alternative is a space-padded day). -/
def dayCands : List Char → List (Nat × List Char)
  | c1 :: c2 :: rest =>
    (if c1 == '3' && charBetween c2 '0' '1' then [(30 + digitVal c2, rest)] else []) ++
    (if charBetween c1 '1' '2' && c2.isDigit then
      [(digitVal c1 * 10 + digitVal c2, rest)] else []) ++
    (if c1 == '0' && charBetween c2 '1' '9' then [(digitVal c2, rest)] else []) ++
    (if charBetween c1 '1' '9' then [(digitVal c1, c2 :: rest)] else []) ++
    (if c1 == ' ' && charBetween c2 '1' '9' then [(digitVal c2, rest)] else [])
  | [c1] => if charBetween c1 '1' '9' then [(digitVal c1, [])] else []
  | [] => []

/-- Candidates for `%H`, regex `2[0-3]|[0-1]\d|\d`, in alternation order. -/
def hourCands : List Char → List (Nat × List Char)
  | c1 :: c2 :: rest =>
    (if c1 == '2' && charBetween c2 '0' '3' then [(20 + digitVal c2, rest)] else []) ++
    (if charBetween c1 '0' '1' && c2.isDigit then
      [(digitVal c1 * 10 + digitVal c2, rest)] else []) ++
    (if c1.isDigit then [(digitVal c1, c2 :: rest)] else [])
  | [c1] => if c1.isDigit then [(digitVal c1, [])] else []
  | [] => []

/-- Candidates for `%M`, regex `[0-5]\d|\d`, in alternation order. -/
def minuteCands : List Char → List (Nat × List Char)
  | c1 :: c2 :: rest =>
    (if charBetween c1 '0' '5' && c2.isDigit then
      [(digitVal c1 * 10 + digitVal c2, rest)] else []) ++
    (if c1.isDigit then [(digitVal c1, c2 :: rest)] else [])
  | [c1] => if c1.isDigit then [(digitVal c1, [])] else []
  | [] => []

/-- Drop a greedy run of whitespace characters (regex `\s`, modelled on
ASCII whitespace, which covers every character relevant here). -/
def dropWS : List Char → List Char
  | c :: rest => if c.isWhitespace then dropWS rest else c :: rest
  | [] => []

/-- The literal space of the format compiles to `\s+`: at least one
whitespace character, consumed greedily. -/
def wsRun : List Char → Option (List Char)
  | c :: rest => if c.isWhitespace then some (dropWS rest) else none
  | [] => none

/-- Regex match for the compiled pattern
`(\d\d\d\d)-(%m)-(%d)\s+(%H):(%M)` anchored at the start, with the
`unconverted data remains` check folded in as the requirement that the
whole string is consumed.  Alternatives are tried in the regex's order
with backtracking, via `List.findSome?`. -/
def parseYmdHM (cs : List Char) : Option DateTime :=
  (yearCands cs).findSome? fun yc =>
    match yc.2 with
    | '-' :: cs1 =>
      (monthCands cs1).findSome? fun mc =>
        match mc.2 with
        | '-' :: cs2 =>
          (dayCands cs2).findSome? fun dc =>
            match wsRun dc.2 with
            | some cs3 =>
              (hourCands cs3).findSome? fun hc =>
                match hc.2 with
                | ':' :: cs4 =>
                  (minuteCands cs4).findSome? fun nc =>
                    match nc.2 with
                    | [] => some ⟨yc.1, mc.1, dc.1, hc.1, nc.1⟩
                    | _ => none
                | _ => none
            | none => none
        | _ => none
    | _ => none

/-- Gregorian leap-year rule used by `datetime`. -/
def isLeapYear (y : Nat) : Bool :=
  y % 4 == 0 && (y % 100 != 0 || y % 400 == 0)

/-- Number of days in a month, as checked by the `datetime` constructor. -/
def daysInMonth (y m : Nat) : Nat :=
  if m == 2 then (if isLeapYear y then 29 else 28)
  else if m == 4 || m == 6 || m == 9 || m == 11 then 30
  else 31

/-- Range checks performed by the `datetime` constructor after the regex
match (`year 0 is out of range`, `day is out of range for month`); month,
hour and minute ranges are already enforced by the regex. -/
def validCalendar (t : DateTime) : Bool :=
  decide (1 ≤ t.year) && decide (t.year ≤ 9999) &&
    decide (t.day ≤ daysInMonth t.year t.month)

/-- `datetime.strptime(s, "%Y-%m-%d %H:%M")`: `some` parsed value, or
`none` when the call raises `ValueError` (format mismatch, unconverted
data, or calendar range failure). -/
def strptime_YmdHM (s : String) : Option DateTime :=
  match parseYmdHM s.toList with
  | some t => if validCalendar t then some t else none
  | none => none

/-- Row of the `events` table (`models.py`).  Note: the mapped columns are
exactly `id`, `title`, `description`, `date`, `location`, `flyer_url`,
`created_at`; there is no `rsvp_deadline` column.  The `rsvps` relationship
is not stored on the row; it is computed from the `rsvps` table. -/
structure Event where
  id : Nat
  title : String
  description : String
  date : DateTime
  location : String
  flyer_url : Option String
  created_at : DateTime
deriving DecidableEq, Repr

/-- Row of the `rsvps` table (`models.py`). -/
structure RSVP where
  id : Nat
  event_id : Nat
  name : String
  email : String
  created_at : DateTime
deriving DecidableEq, Repr

/-- The relational store: the two tables in insertion order, plus the two
primary-key sequences (Postgres `serial`, starting at 1). -/
structure Store where
  events : List Event
  rsvps : List RSVP
  nextEventId : Nat
  nextRsvpId : Nat
deriving DecidableEq, Repr

/-- The empty database the application starts from. -/
def initStore : Store := ⟨[], [], 1, 1⟩

/-- `fastapi.HTTPException` with its status code and detail message. -/
structure HTTPException where
  status_code : Nat
  detail : String
deriving DecidableEq, Repr

/-- `RSVPResponse` of `schemas.py`. -/
structure RSVPResponse where
  name : String
  email : String
  id : Nat
  event_id : Nat
  created_at : DateTime
deriving DecidableEq, Repr

/-- `EventResponse` of `schemas.py`. -/
structure EventResponse where
  title : String
  description : String
  date : DateTime
  location : String
  flyer_url : Option String
  id : Nat
  created_at : DateTime
  rsvps : List RSVPResponse
deriving DecidableEq, Repr

/-- Projection of an `RSVP` row to the `RSVPResponse` schema. -/
def RSVP.toResponse (r : RSVP) : RSVPResponse :=
  ⟨r.name, r.email, r.id, r.event_id, r.created_at⟩

/-- Projection of an `Event` row to the `EventResponse` schema: the `rsvps`
relationship loads the rows whose `event_id` foreign key equals the event's
id, in insertion order. -/
def Event.toResponse (e : Event) (s : Store) : EventResponse :=
  ⟨e.title, e.description, e.date, e.location, e.flyer_url, e.id, e.created_at,
    (s.rsvps.filter (fun r => r.event_id == e.id)).map RSVP.toResponse⟩

/-- `db.query(Event).filter(Event.id == event_id).first()`. -/
def findEvent (s : Store) (event_id : Nat) : Option Event :=
  s.events.find? (fun e => e.id == event_id)

/-- `db.query(RSVP).filter(RSVP.event_id == event_id, RSVP.email == email).first()`. -/
def findRSVP (s : Store) (event_id : Nat) (email : String) : Option RSVP :=
  s.rsvps.find? (fun r => r.event_id == event_id && r.email == email)

/-- The optional flyer of a create-event request: FastAPI's `UploadFile`
carries a filename; the file body itself is only handed to the upload
provider and never inspected, so it is not modelled. -/
structure UploadFile where
  filename : String
deriving DecidableEq, Repr

/-- Outcome of the external `cloudinary.uploader.upload` call, treated as
an oracle: the provider either returns a `secure_url` or raises with a
message. -/
inductive UploadOutcome where
  | ok (secure_url : String)
  | err (msg : String)
deriving DecidableEq, Repr

/-- The flyer-upload step of `create_event`: the upload is attempted only
when a flyer is present with a truthy (non-empty) filename; otherwise
`flyer_url` stays `None`. -/
def flyerUpload : Option UploadFile → UploadOutcome → Except String (Option String)
  | some f, u =>
    if f.filename == "" then .ok none
    else
      match u with
      | .ok url => .ok (some url)
      | .err m => .error m
  | none, _ => .ok none

/-- `POST /events/` (`create_event` in `main.py`): parse the date string,
optionally upload the flyer, then insert the event row.  `now` is the
store clock used for the `created_at` default; `upload` is the outcome the
provider would produce if called.  Returns the response (or the raised
`HTTPException`) together with the store after commit. -/
def create_event (s : Store) (title description date location : String)
    (flyer : Option UploadFile) (upload : UploadOutcome) (now : DateTime) :
    Except HTTPException EventResponse × Store :=
  match strptime_YmdHM date with
  | none => (.error ⟨400, "Invalid date format. Use YYYY-MM-DD HH:MM"⟩, s)
  | some event_date =>
    match flyerUpload flyer upload with
    | .error e => (.error ⟨400, "Failed to upload flyer: " ++ e⟩, s)
    | .ok flyer_url =>
      let db_event : Event :=
        ⟨s.nextEventId, title, description, event_date, location, flyer_url, now⟩
      let s' : Store := ⟨s.events ++ [db_event], s.rsvps, s.nextEventId + 1, s.nextRsvpId⟩
      (.ok (db_event.toResponse s'), s')

/-- Descending-date order used by `GET /events/`:
`order_by(Event.date.desc())`. -/
def dateDesc (a b : Event) : Prop :=
  b.date.encode ≤ a.date.encode

instance : DecidableRel dateDesc := fun a b =>
  inferInstanceAs (Decidable (b.date.encode ≤ a.date.encode))

instance : IsTotal Event dateDesc :=
  ⟨fun a b => Nat.le_total b.date.encode a.date.encode⟩

instance : IsTrans Event dateDesc :=
  ⟨fun _ _ _ hab hbc => Nat.le_trans hbc hab⟩

/-- `GET /events/` (`get_events`): all event rows ordered by `date`
descending. -/
def get_events (s : Store) : List Event :=
  s.events.insertionSort dateDesc

/-- `GET /events/{event_id}` (`get_event`). -/
def get_event (s : Store) (event_id : Nat) : Except HTTPException Event :=
  match findEvent s event_id with
  | none => .error ⟨404, "Event not found"⟩
  | some event => .ok event

/-- `POST /events/{event_id}/rsvp` (`create_rsvp`): 404 if the event is
absent, 400 if an RSVP with the same `(event_id, email)` already exists,
otherwise insert the RSVP row. -/
def create_rsvp (s : Store) (event_id : Nat) (name email : String) (now : DateTime) :
    Except HTTPException RSVP × Store :=
  match findEvent s event_id with
  | none => (.error ⟨404, "Event not found"⟩, s)
  | some _ =>
    match findRSVP s event_id email with
    | some _ => (.error ⟨400, "You have already RSVPed to this event"⟩, s)
    | none =>
      let db_rsvp : RSVP := ⟨s.nextRsvpId, event_id, name, email, now⟩
      (.ok db_rsvp, ⟨s.events, s.rsvps ++ [db_rsvp], s.nextEventId, s.nextRsvpId + 1⟩)

/-- `GET /events/{event_id}/rsvps` (`get_event_rsvps`): 404 if the event
is absent, otherwise the RSVP rows for that event in insertion order. -/
def get_event_rsvps (s : Store) (event_id : Nat) : Except HTTPException (List RSVP) :=
  match findEvent s event_id with
  | none => .error ⟨404, "Event not found"⟩
  | some _ => .ok (s.rsvps.filter (fun r => r.event_id == event_id))

/-- `POST /events/{event_id}/rsvp/deadline` (`set_rsvp_deadline`): 404 if
the event is absent.  Otherwise the handler assigns
`event.rsvp_deadline = deadline`; the `Event` model of `models.py` has no
`rsvp_deadline` column, so the assignment creates an untracked instance
attribute, `db.commit()` flushes no change, and the committed store is
unchanged.  The handler returns the event row (the route moreover declares
`response_model=RSVPResponse`, under which an event row cannot validate). -/
def set_rsvp_deadline (s : Store) (event_id : Nat) (deadline : DateTime) :
    Except HTTPException Event × Store :=
  match findEvent s event_id with
  | none => (.error ⟨404, "Event not found"⟩, s)
  | some event => (.ok event, s)

/-- `GET /events/{event_id}/rsvp/status` (`get_rsvp_status`): 404 if the
event is absent, 404 if no RSVP row matches `(event_id, email)`. -/
def get_rsvp_status (s : Store) (event_id : Nat) (email : String) :
    Except HTTPException RSVP :=
  match findEvent s event_id with
  | none => .error ⟨404, "Event not found"⟩
  | some _ =>
    match findRSVP s event_id email with
    | none => .error ⟨404, "RSVP not found"⟩
    | some rsvp => .ok rsvp

/-- `DELETE /events/{event_id}/rsvp` (`cancel_rsvp`): 404 if the event is
absent, 404 if no RSVP row matches; otherwise `db.delete(rsvp)` removes
the row with that primary key and the deleted row's data is returned. -/
def cancel_rsvp (s : Store) (event_id : Nat) (email : String) :
    Except HTTPException RSVP × Store :=
  match findEvent s event_id with
  | none => (.error ⟨404, "Event not found"⟩, s)
  | some _ =>
    match findRSVP s event_id email with
    | none => (.error ⟨404, "RSVP not found"⟩, s)
    | some rsvp =>
      (.ok rsvp, ⟨s.events, s.rsvps.filter (fun r => r.id != rsvp.id),
        s.nextEventId, s.nextRsvpId⟩)

/-- A state-changing API call, with the oracle inputs (clock, upload
outcome) it was made with.  The read-only routes do not touch the store. -/
inductive Op where
  | createEvent (title description date location : String)
      (flyer : Option UploadFile) (upload : UploadOutcome) (now : DateTime)
  | createRsvp (event_id : Nat) (name email : String) (now : DateTime)
  | setDeadline (event_id : Nat) (deadline : DateTime)
  | cancelRsvp (event_id : Nat) (email : String)

/-- The store after serving one call. -/
def Op.apply (op : Op) (s : Store) : Store :=
  match op with
  | .createEvent t d dt l f u n => (create_event s t d dt l f u n).2
  | .createRsvp e n em now => (create_rsvp s e n em now).2
  | .setDeadline e d => (set_rsvp_deadline s e d).2
  | .cancelRsvp e em => (cancel_rsvp s e em).2

/-- Stores reachable from the empty database through the API. -/
inductive Reachable : Store → Prop where
  | init : Reachable initStore
  | step (op : Op) (s : Store) : Reachable s → Reachable (op.apply s)

/-- At most one RSVP row per `(event_id, email)` pair. -/
def RsvpUnique (s : Store) : Prop :=
  ∀ r1 ∈ s.rsvps, ∀ r2 ∈ s.rsvps,
    r1.event_id = r2.event_id → r1.email = r2.email → r1 = r2

/-- The store invariants maintained by the API: RSVP deduplication,
referential integrity of the `event_id` foreign key, and freshness of the
two id sequences. -/
structure StoreInv (s : Store) : Prop where
  uniq : RsvpUnique s
  refInt : ∀ r ∈ s.rsvps, ∃ e ∈ s.events, e.id = r.event_id
  evIdLt : ∀ e ∈ s.events, e.id < s.nextEventId
  rsvpIdLt : ∀ r ∈ s.rsvps, r.id < s.nextRsvpId
  evIdPos : 1 ≤ s.nextEventId

/-- The empty database satisfies the store invariants. -/
theorem storeInv_init : StoreInv initStore := by
  refine ⟨?_, ?_, ?_, ?_, ?_⟩ <;> simp [initStore, RsvpUnique]

/-- Appending a fresh-id event row preserves the invariants. -/
theorem storeInv_addEvent (s : Store) (e : Event) (h : StoreInv s)
    (hid : e.id = s.nextEventId) :
    StoreInv ⟨s.events ++ [e], s.rsvps, s.nextEventId + 1, s.nextRsvpId⟩ := by
  obtain ⟨hu, hr, he, hi, hp⟩ := h
  refine ⟨hu, ?_, ?_, hi, by dsimp only; omega⟩
  · dsimp only
    intro r hrm
    obtain ⟨ev, hev, hevid⟩ := hr r hrm
    exact ⟨ev, List.mem_append.mpr (Or.inl hev), hevid⟩
  · dsimp only
    intro ev hev
    rcases List.mem_append.mp hev with h1 | h1
    · exact Nat.lt_trans (he ev h1) (Nat.lt_succ_self _)
    · simp only [List.mem_singleton] at h1
      subst h1
      omega

/-- Appending a fresh-id RSVP row whose event exists and whose
`(event_id, email)` pair is not yet present preserves the invariants. -/
theorem storeInv_addRsvp (s : Store) (r : RSVP) (h : StoreInv s)
    (hid : r.id = s.nextRsvpId)
    (hev : ∃ e ∈ s.events, e.id = r.event_id)
    (hnew : ∀ r' ∈ s.rsvps, ¬(r'.event_id = r.event_id ∧ r'.email = r.email)) :
    StoreInv ⟨s.events, s.rsvps ++ [r], s.nextEventId, s.nextRsvpId + 1⟩ := by
  obtain ⟨hu, hrr, he, hi, hp⟩ := h
  refine ⟨?_, ?_, he, ?_, hp⟩
  · dsimp only [RsvpUnique]
    intro r1 h1 r2 h2 heq hem
    rcases List.mem_append.mp h1 with h1a | h1b
    · rcases List.mem_append.mp h2 with h2a | h2b
      · exact hu r1 h1a r2 h2a heq hem
      · simp only [List.mem_singleton] at h2b
        subst h2b
        exact absurd ⟨heq, hem⟩ (hnew r1 h1a)
    · simp only [List.mem_singleton] at h1b
      subst h1b
      rcases List.mem_append.mp h2 with h2a | h2b
      · exact absurd ⟨heq.symm, hem.symm⟩ (hnew r2 h2a)
      · simp only [List.mem_singleton] at h2b
        subst h2b
        rfl
  · dsimp only
    intro r' h'
    rcases List.mem_append.mp h' with h' | h'
    · exact hrr r' h'
    · simp only [List.mem_singleton] at h'
      subst h'
      exact hev
  · dsimp only
    intro r' h'
    rcases List.mem_append.mp h' with h' | h'
    · exact Nat.lt_trans (hi r' h') (Nat.lt_succ_self _)
    · simp only [List.mem_singleton] at h'
      subst h'
      omega

/-- Deleting RSVP rows (a filter over the table) preserves the invariants. -/
theorem storeInv_filterRsvps (s : Store) (p : RSVP → Bool) (h : StoreInv s) :
    StoreInv ⟨s.events, s.rsvps.filter p, s.nextEventId, s.nextRsvpId⟩ := by
  obtain ⟨hu, hrr, he, hi, hp⟩ := h
  refine ⟨?_, ?_, he, ?_, hp⟩
  · intro r1 h1 r2 h2 heq hem
    exact hu r1 (List.mem_filter.mp h1).1 r2 (List.mem_filter.mp h2).1 heq hem
  · intro r h'
    exact hrr r (List.mem_filter.mp h').1
  · intro r h'
    exact hi r (List.mem_filter.mp h').1

/-- Every state-changing API call preserves the store invariants. -/
theorem storeInv_apply (op : Op) (s : Store) (h : StoreInv s) : StoreInv (op.apply s) := by
  cases op with
  | createEvent t d dt l f u n =>
    show StoreInv (create_event s t d dt l f u n).2
    unfold create_event
    cases hdt : strptime_YmdHM dt with
    | none => exact h
    | some ed =>
      cases hup : flyerUpload f u with
      | error e => exact h
      | ok url => exact storeInv_addEvent s _ h rfl
  | createRsvp eid nm em now =>
    show StoreInv (create_rsvp s eid nm em now).2
    unfold create_rsvp
    cases hev : findEvent s eid with
    | none => exact h
    | some e =>
      cases hr : findRSVP s eid em with
      | some r0 => exact h
      | none =>
        refine storeInv_addRsvp s _ h rfl ?_ ?_
        · refine ⟨e, List.mem_of_find?_eq_some hev, ?_⟩
          have he := List.find?_some hev
          simpa using he
        · intro r' h' hc
          have hnone := (List.find?_eq_none.mp hr) r' h'
          apply hnone
          have h1 : r'.event_id = eid := hc.1
          have h2 : r'.email = em := hc.2
          simp [findRSVP, h1, h2]
  | setDeadline eid d =>
    show StoreInv (set_rsvp_deadline s eid d).2
    unfold set_rsvp_deadline
    cases hev : findEvent s eid with
    | none => exact h
    | some e => exact h
  | cancelRsvp eid em =>
    show StoreInv (cancel_rsvp s eid em).2
    unfold cancel_rsvp
    cases hev : findEvent s eid with
    | none => exact h
    | some e =>
      cases hr : findRSVP s eid em with
      | none => exact h
      | some r0 => exact storeInv_filterRsvps s _ h

/-- Every reachable store satisfies the invariants. -/
theorem reachable_storeInv (s : Store) (h : Reachable s) : StoreInv s := by
  induction h with
  | init => exact storeInv_init
  | step op s hs ih => exact storeInv_apply op s ih

/-- A fixed clock value for concrete runs. -/
def now0 : DateTime := ⟨2025, 5, 1, 12, 0⟩

/-- A second clock value for concrete runs. -/
def now1 : DateTime := ⟨2025, 5, 2, 9, 0⟩

/-- Concrete store obtained by creating one event (id 1) in the empty
database. -/
def store1 : Store :=
  (Op.createEvent "Launch" "Opening party" "2025-06-01 18:00" "Lagos" none
    (.ok "unused") now0).apply initStore

theorem store1_reachable : Reachable store1 :=
  Reachable.step _ _ Reachable.init

/-- Concrete store obtained from `store1` by adding one RSVP (id 1,
event 1) for Bob. -/
def store2 : Store :=
  (Op.createRsvp 1 "Bob" "bob@mail.com" now1).apply store1

theorem store2_reachable : Reachable store2 :=
  Reachable.step _ _ store1_reachable

/-- Characterization of a successful create-RSVP call: when the event
exists and the pair lookup finds nothing, the handler returns the fresh
row and appends it to the table. -/
theorem create_rsvp_success (s : Store) (event_id : Nat) (name email : String)
    (now : DateTime) (e : Event) (hev : findEvent s event_id = some e)
    (hr : findRSVP s event_id email = none) :
    create_rsvp s event_id name email now =
      (.ok ⟨s.nextRsvpId, event_id, name, email, now⟩,
       ⟨s.events, s.rsvps ++ [⟨s.nextRsvpId, event_id, name, email, now⟩],
        s.nextEventId, s.nextRsvpId + 1⟩) := by
  unfold create_rsvp
  rw [hev, hr]

/-- Modelled from the spec's words, for comparison only: a date string
"matches the literal pattern `YYYY-MM-DD HH:MM`" when it is exactly four
digits, a hyphen, two digits, a hyphen, two digits, one space, two digits,
a colon and two digits.  (The spec's own example "2025-13-40 99:99" is
said to match the pattern while being calendar-invalid, so the pattern is
the purely syntactic digit shape.) -/
def matchesLiteralPattern (s : String) : Bool :=
  match s.toList with
  | [y1, y2, y3, y4, '-', m1, m2, '-', d1, d2, ' ', h1, h2, ':', n1, n2] =>
    y1.isDigit && y2.isDigit && y3.isDigit && y4.isDigit &&
      m1.isDigit && m2.isDigit && d1.isDigit && d2.isDigit &&
      h1.isDigit && h2.isDigit && n1.isDigit && n2.isDigit
  | _ => false

/-- C1 (code bug): `models.py` gives `Event` no `rsvp_deadline` column, so
the assignment in `set_rsvp_deadline` creates an untracked attribute and
the commit persists nothing.  Evaluated at a store holding one event: the
call on the existing event leaves the committed store unchanged, and a
subsequent get-event returns the event row exactly as before the call —
the row (which has no `rsvp_deadline` field at all) reflects no deadline,
contrary to the claim that the update is persisted and reflected. -/
theorem C1_deadline_not_persisted :
    (set_rsvp_deadline store1 1 ⟨2025, 5, 30, 23, 59⟩).2 = store1 ∧
    get_event (set_rsvp_deadline store1 1 ⟨2025, 5, 30, 23, 59⟩).2 1 = get_event store1 1 ∧
    get_event store1 1 =
      .ok ⟨1, "Launch", "Opening party", ⟨2025, 6, 1, 18, 0⟩, "Lagos", none, now0⟩ := by
  refine ⟨by decide, rfl, by decide⟩

/-- C3 (counterexample): the date string "2025-1-2 3:4" does not match the
literal pattern `YYYY-MM-DD HH:MM`, yet create-event accepts it, returning
the created event and persisting an Event row — refuting the claim that
every non-matching date string yields a 400 with no Event persisted. -/
theorem C3_counterexample :
    matchesLiteralPattern "2025-1-2 3:4" = false ∧
    (create_event initStore "T" "D" "2025-1-2 3:4" "L" none (.ok "u") now0).1 =
      .ok ⟨"T", "D", ⟨2025, 1, 2, 3, 4⟩, "L", none, 1, now0, []⟩ ∧
    (create_event initStore "T" "D" "2025-1-2 3:4" "L" none (.ok "u") now0).2.events.length = 1 := by
  refine ⟨by decide, by decide, by decide⟩

/-- C3 (amended): for every create-event input whose date string is
rejected by `strptime` with format `%Y-%m-%d %H:%M` — a parser that also
accepts one-digit month, day, hour and minute, and rejects syntactically
matching but calendar-invalid strings such as "2025-13-40 99:99" — the
operation fails with the 400 validation error (not a server error) and the
store is unchanged, so no Event is persisted. -/
theorem C3_invalid_date_400 (s : Store) (title description date location : String)
    (flyer : Option UploadFile) (upload : UploadOutcome) (now : DateTime)
    (h : strptime_YmdHM date = none) :
    (create_event s title description date location flyer upload now).1 =
      .error ⟨400, "Invalid date format. Use YYYY-MM-DD HH:MM"⟩ ∧
    (create_event s title description date location flyer upload now).2 = s := by
  unfold create_event
  rw [h]
  exact ⟨rfl, rfl⟩

/-- Witness for C3 (amended) at the spec's own example input. -/
theorem C3_invalid_date_400_witness :
    strptime_YmdHM "2025-13-40 99:99" = none ∧
    ((create_event initStore "T" "D" "2025-13-40 99:99" "L" none (.ok "u") now0).1 =
       .error ⟨400, "Invalid date format. Use YYYY-MM-DD HH:MM"⟩ ∧
     (create_event initStore "T" "D" "2025-13-40 99:99" "L" none (.ok "u") now0).2 = initStore) :=
  ⟨by decide,
   C3_invalid_date_400 initStore "T" "D" "2025-13-40 99:99" "L" none (.ok "u") now0 (by decide)⟩

/-- C4: when the date parses and a flyer with a truthy (non-empty)
filename is supplied but the provider's upload fails with some message,
create-event returns a 400 whose detail includes the upstream provider's
message, and the committed store is unchanged — no Event row is written. -/
theorem C4_upload_failure_aborts (s : Store) (title description date location : String)
    (f : UploadFile) (msg : String) (now : DateTime) (d : DateTime)
    (hd : strptime_YmdHM date = some d) (hf : f.filename ≠ "") :
    (create_event s title description date location (some f) (.err msg) now).1 =
      .error ⟨400, "Failed to upload flyer: " ++ msg⟩ ∧
    (create_event s title description date location (some f) (.err msg) now).2 = s := by
  have hb : (f.filename == "") = false := beq_eq_false_iff_ne.mpr hf
  unfold create_event flyerUpload
  rw [hd]
  dsimp only
  rw [hb]
  exact ⟨rfl, rfl⟩

/-- Witness for C4 at a concrete store, date and provider message. -/
theorem C4_upload_failure_aborts_witness :
    strptime_YmdHM "2025-06-01 18:00" = some ⟨2025, 6, 1, 18, 0⟩ ∧
    (⟨"flyer.png"⟩ : UploadFile).filename ≠ "" ∧
    ((create_event store1 "Gala" "Dinner" "2025-06-01 18:00" "Abuja"
        (some ⟨"flyer.png"⟩) (.err "Invalid image file") now1).1 =
       .error ⟨400, "Failed to upload flyer: " ++ "Invalid image file"⟩ ∧
     (create_event store1 "Gala" "Dinner" "2025-06-01 18:00" "Abuja"
        (some ⟨"flyer.png"⟩) (.err "Invalid image file") now1).2 = store1) :=
  ⟨by decide, by decide,
   C4_upload_failure_aborts store1 "Gala" "Dinner" "2025-06-01 18:00" "Abuja"
     ⟨"flyer.png"⟩ "Invalid image file" now1 ⟨2025, 6, 1, 18, 0⟩ (by decide) (by decide)⟩

/-- C5: the list-events operation returns the full sequence of stored
events — a permutation of the events table — sorted in descending order of
their `date` field. -/
theorem C5_get_events_sorted_desc (s : Store) :
    (get_events s).Perm s.events ∧ List.Sorted dateDesc (get_events s) :=
  ⟨List.perm_insertionSort dateDesc s.events, List.sorted_insertionSort dateDesc s.events⟩

/-- C6: on an event id with no matching event row, each of the four
RSVP-related operations (create, list, status, cancel) returns the 404
"Event not found" regardless of any other request data or stored RSVP
rows, and the mutating ones leave the store unchanged. -/
theorem C6_missing_event_404 (s : Store) (event_id : Nat) (name email : String)
    (now : DateTime) (h : findEvent s event_id = none) :
    (create_rsvp s event_id name email now).1 = .error ⟨404, "Event not found"⟩ ∧
    (create_rsvp s event_id name email now).2 = s ∧
    get_event_rsvps s event_id = .error ⟨404, "Event not found"⟩ ∧
    get_rsvp_status s event_id email = .error ⟨404, "Event not found"⟩ ∧
    (cancel_rsvp s event_id email).1 = .error ⟨404, "Event not found"⟩ ∧
    (cancel_rsvp s event_id email).2 = s := by
  unfold create_rsvp get_event_rsvps get_rsvp_status cancel_rsvp
  rw [h]
  exact ⟨rfl, rfl, rfl, rfl, rfl, rfl⟩

/-- Witness for C6: event id 7 does not exist in `store2` (which does hold
an event and an RSVP, so the 404 is decided before any other check). -/
theorem C6_missing_event_404_witness :
    (create_rsvp store2 7 "Eve" "eve@mail.com" now1).1 = .error ⟨404, "Event not found"⟩ ∧
    (create_rsvp store2 7 "Eve" "eve@mail.com" now1).2 = store2 ∧
    get_event_rsvps store2 7 = .error ⟨404, "Event not found"⟩ ∧
    get_rsvp_status store2 7 "eve@mail.com" = .error ⟨404, "Event not found"⟩ ∧
    (cancel_rsvp store2 7 "eve@mail.com").1 = .error ⟨404, "Event not found"⟩ ∧
    (cancel_rsvp store2 7 "eve@mail.com").2 = store2 :=
  C6_missing_event_404 store2 7 "Eve" "eve@mail.com" now1 (by decide)

/-- C9: setting the RSVP deadline on one event leaves every other stored
event row unchanged and every stored RSVP row unchanged (in fact the
committed store is entirely unchanged, since `rsvp_deadline` is not a
mapped column). -/
theorem C9_set_deadline_frame (s : Store) (event_id : Nat) (deadline : DateTime) :
    (set_rsvp_deadline s event_id deadline).2.events.filter (fun e => e.id != event_id)
      = s.events.filter (fun e => e.id != event_id) ∧
    (set_rsvp_deadline s event_id deadline).2.rsvps = s.rsvps := by
  unfold set_rsvp_deadline
  cases h : findEvent s event_id <;> exact ⟨rfl, rfl⟩

/-- C2: in every reachable store at most one RSVP row exists per
`(event_id, email)` pair; for an existing event, create-RSVP succeeds
exactly when no RSVP with that pair exists (the fresh row is then found by
the pair lookup), fails with the 400 conflict and an unchanged store when
one exists, and a second identical submission immediately after a
successful one always fails with the 400 conflict. -/
theorem C2_rsvp_dedup (s : Store) (h : Reachable s) (event_id : Nat)
    (name email : String) (now : DateTime) :
    RsvpUnique s ∧
    (∀ e : Event, findEvent s event_id = some e →
      (findRSVP s event_id email = none →
        (create_rsvp s event_id name email now).1 =
          .ok ⟨s.nextRsvpId, event_id, name, email, now⟩ ∧
        findRSVP (create_rsvp s event_id name email now).2 event_id email =
          some ⟨s.nextRsvpId, event_id, name, email, now⟩) ∧
      (∀ r0 : RSVP, findRSVP s event_id email = some r0 →
        (create_rsvp s event_id name email now).1 =
          .error ⟨400, "You have already RSVPed to this event"⟩ ∧
        (create_rsvp s event_id name email now).2 = s)) ∧
    (∀ r : RSVP, ∀ name2 : String, ∀ now2 : DateTime,
      (create_rsvp s event_id name email now).1 = .ok r →
      (create_rsvp (create_rsvp s event_id name email now).2 event_id name2 email now2).1 =
        .error ⟨400, "You have already RSVPed to this event"⟩) := by
  refine ⟨(reachable_storeInv s h).uniq, ?_, ?_⟩
  · intro e hev
    constructor
    · intro hnone
      rw [create_rsvp_success s event_id name email now e hev hnone]
      refine ⟨rfl, ?_⟩
      have hr' : s.rsvps.find?
          (fun r => r.event_id == event_id && r.email == email) = none := hnone
      unfold findRSVP
      dsimp only
      rw [List.find?_append, hr']
      simp
    · intro r0 hr0
      unfold create_rsvp
      rw [hev, hr0]
      exact ⟨rfl, rfl⟩
  · intro r name2 now2 hok
    cases hev : findEvent s event_id with
    | none =>
      unfold create_rsvp at hok
      rw [hev] at hok
      exact absurd hok (by simp)
    | some e =>
      cases hr : findRSVP s event_id email with
      | some r0 =>
        unfold create_rsvp at hok
        rw [hev, hr] at hok
        exact absurd hok (by simp)
      | none =>
        rw [create_rsvp_success s event_id name email now e hev hr]
        have hev' : s.events.find? (fun e => e.id == event_id) = some e := hev
        have hr' : s.rsvps.find?
            (fun r => r.event_id == event_id && r.email == email) = none := hr
        unfold create_rsvp findEvent findRSVP
        dsimp only
        rw [hev', List.find?_append, hr']
        simp

/-- Witness for C2 at `store1` (one event, no RSVPs yet). -/
theorem C2_rsvp_dedup_witness :
    RsvpUnique store1 ∧
    (∀ e : Event, findEvent store1 1 = some e →
      (findRSVP store1 1 "bob@mail.com" = none →
        (create_rsvp store1 1 "Bob" "bob@mail.com" now1).1 =
          .ok ⟨store1.nextRsvpId, 1, "Bob", "bob@mail.com", now1⟩ ∧
        findRSVP (create_rsvp store1 1 "Bob" "bob@mail.com" now1).2 1 "bob@mail.com" =
          some ⟨store1.nextRsvpId, 1, "Bob", "bob@mail.com", now1⟩) ∧
      (∀ r0 : RSVP, findRSVP store1 1 "bob@mail.com" = some r0 →
        (create_rsvp store1 1 "Bob" "bob@mail.com" now1).1 =
          .error ⟨400, "You have already RSVPed to this event"⟩ ∧
        (create_rsvp store1 1 "Bob" "bob@mail.com" now1).2 = store1)) ∧
    (∀ r : RSVP, ∀ name2 : String, ∀ now2 : DateTime,
      (create_rsvp store1 1 "Bob" "bob@mail.com" now1).1 = .ok r →
      (create_rsvp (create_rsvp store1 1 "Bob" "bob@mail.com" now1).2 1 name2 "bob@mail.com" now2).1 =
        .error ⟨400, "You have already RSVPed to this event"⟩) :=
  C2_rsvp_dedup store1 store1_reachable 1 "Bob" "bob@mail.com" now1

/-- C7: for an existing event and an email with a matching RSVP, in a
store with at most one RSVP per `(event_id, email)` pair (as every
reachable store is), cancel-RSVP returns 200 with the just-deleted RSVP's
data, removes that row, and an immediately following get-RSVP-status call
for the same event id and email returns 404. -/
theorem C7_cancel_then_status_404 (s : Store) (event_id : Nat) (email : String)
    (hu : RsvpUnique s) (e : Event) (hev : findEvent s event_id = some e)
    (r0 : RSVP) (hr : findRSVP s event_id email = some r0) :
    (cancel_rsvp s event_id email).1 = .ok r0 ∧
    r0 ∉ (cancel_rsvp s event_id email).2.rsvps ∧
    get_rsvp_status (cancel_rsvp s event_id email).2 event_id email =
      .error ⟨404, "RSVP not found"⟩ := by
  have hr0p := List.find?_some hr
  simp only [Bool.and_eq_true, beq_iff_eq] at hr0p
  have hr0mem : r0 ∈ s.rsvps := List.mem_of_find?_eq_some hr
  have hs2 : (cancel_rsvp s event_id email).2 =
      ⟨s.events, s.rsvps.filter (fun r => r.id != r0.id), s.nextEventId, s.nextRsvpId⟩ := by
    unfold cancel_rsvp
    rw [hev, hr]
  have h1 : (cancel_rsvp s event_id email).1 = .ok r0 := by
    unfold cancel_rsvp
    rw [hev, hr]
  refine ⟨h1, ?_, ?_⟩
  · rw [hs2]
    dsimp only
    intro hmem
    have hcontra := (List.mem_filter.mp hmem).2
    simp at hcontra
  · rw [hs2]
    have hev' : s.events.find? (fun ev => ev.id == event_id) = some e := hev
    have hnone : (s.rsvps.filter (fun r => r.id != r0.id)).find?
        (fun r => r.event_id == event_id && r.email == email) = none := by
      rw [List.find?_eq_none]
      intro r' hmem hp
      have hm := List.mem_filter.mp hmem
      simp only [Bool.and_eq_true, beq_iff_eq] at hp
      have heq : r' = r0 :=
        hu r' hm.1 r0 hr0mem (hp.1.trans hr0p.1.symm) (hp.2.trans hr0p.2.symm)
      rw [heq] at hm
      simp at hm
    unfold get_rsvp_status findEvent findRSVP
    dsimp only
    rw [hev', hnone]

/-- Witness for C7 at `store2` (event 1 with Bob's RSVP). -/
theorem C7_cancel_then_status_404_witness :
    (cancel_rsvp store2 1 "bob@mail.com").1 =
      .ok ⟨1, 1, "Bob", "bob@mail.com", now1⟩ ∧
    (⟨1, 1, "Bob", "bob@mail.com", now1⟩ : RSVP) ∉ (cancel_rsvp store2 1 "bob@mail.com").2.rsvps ∧
    get_rsvp_status (cancel_rsvp store2 1 "bob@mail.com").2 1 "bob@mail.com" =
      .error ⟨404, "RSVP not found"⟩ :=
  C7_cancel_then_status_404 store2 1 "bob@mail.com"
    (reachable_storeInv store2 store2_reachable).uniq
    ⟨1, "Launch", "Opening party", ⟨2025, 6, 1, 18, 0⟩, "Lagos", none, now0⟩ (by decide)
    ⟨1, 1, "Bob", "bob@mail.com", now1⟩ (by decide)

/-- C8: for every valid create-event input with a well-formed date in a
store satisfying the invariants (as every reachable store does), a
successful create-event returns a response carrying the freshly generated
id (which is positive, hence non-empty), the `created_at` timestamp set to
the insertion clock, and an empty `rsvps` list. -/
theorem C8_create_event_response (s : Store) (hinv : StoreInv s)
    (title description date location : String) (flyer : Option UploadFile)
    (upload : UploadOutcome) (now : DateTime) (resp : EventResponse)
    (hok : (create_event s title description date location flyer upload now).1 = .ok resp) :
    resp.id = s.nextEventId ∧ 1 ≤ resp.id ∧ resp.created_at = now ∧ resp.rsvps = [] := by
  cases hdt : strptime_YmdHM date with
  | none =>
    unfold create_event at hok
    rw [hdt] at hok
    exact absurd hok (by simp)
  | some d =>
    cases hup : flyerUpload flyer upload with
    | error e =>
      unfold create_event at hok
      rw [hdt] at hok
      dsimp only at hok
      rw [hup] at hok
      exact absurd hok (by simp)
    | ok url =>
      unfold create_event at hok
      rw [hdt] at hok
      dsimp only at hok
      rw [hup] at hok
      dsimp only [Event.toResponse] at hok
      simp only [Except.ok.injEq] at hok
      subst hok
      refine ⟨rfl, hinv.evIdPos, rfl, ?_⟩
      dsimp only
      have hempty : s.rsvps.filter (fun r => r.event_id == s.nextEventId) = [] := by
        rw [List.filter_eq_nil_iff]
        intro r hmem hp
        obtain ⟨ev, hevmem, hevid⟩ := hinv.refInt r hmem
        have hlt := hinv.evIdLt ev hevmem
        simp only [beq_iff_eq] at hp
        omega
      rw [hempty]
      rfl

/-- Witness for C8: a successful create-event on `store1`. -/
theorem C8_create_event_response_witness :
    (create_event store1 "Gala" "Dinner" "2025-07-01 19:30" "Abuja" none (.ok "u") now1).1 =
      .ok ⟨"Gala", "Dinner", ⟨2025, 7, 1, 19, 30⟩, "Abuja", none, 2, now1, []⟩ ∧
    ((⟨"Gala", "Dinner", ⟨2025, 7, 1, 19, 30⟩, "Abuja", none, 2, now1, []⟩ : EventResponse).id =
        store1.nextEventId ∧
      1 ≤ (⟨"Gala", "Dinner", ⟨2025, 7, 1, 19, 30⟩, "Abuja", none, 2, now1, []⟩ : EventResponse).id ∧
      (⟨"Gala", "Dinner", ⟨2025, 7, 1, 19, 30⟩, "Abuja", none, 2, now1, []⟩ : EventResponse).created_at = now1 ∧
      (⟨"Gala", "Dinner", ⟨2025, 7, 1, 19, 30⟩, "Abuja", none, 2, now1, []⟩ : EventResponse).rsvps = []) :=
  ⟨by decide,
   C8_create_event_response store1 (reachable_storeInv store1 store1_reachable)
     "Gala" "Dinner" "2025-07-01 19:30" "Abuja" none (.ok "u") now1
     ⟨"Gala", "Dinner", ⟨2025, 7, 1, 19, 30⟩, "Abuja", none, 2, now1, []⟩ (by decide)⟩

/-- C10: duplicate-RSVP detection and RSVP lookup compare emails by exact,
case-sensitive string equality: for any two distinct email strings (in
particular two that differ only in letter case) on the same existing
event, create-RSVP succeeds for both, producing two distinct RSVP rows,
and get-RSVP-status for the first email afterwards returns the first row,
not the second. -/
theorem C10_email_case_sensitive (s : Store) (event_id : Nat) (e : Event)
    (hev : findEvent s event_id = some e) (email1 email2 : String)
    (hne : email1 ≠ email2)
    (h1 : findRSVP s event_id email1 = none) (h2 : findRSVP s event_id email2 = none)
    (name1 name2 : String) (t1 t2 : DateTime) :
    (create_rsvp s event_id name1 email1 t1).1 =
      .ok ⟨s.nextRsvpId, event_id, name1, email1, t1⟩ ∧
    (create_rsvp (create_rsvp s event_id name1 email1 t1).2 event_id name2 email2 t2).1 =
      .ok ⟨s.nextRsvpId + 1, event_id, name2, email2, t2⟩ ∧
    (⟨s.nextRsvpId, event_id, name1, email1, t1⟩ : RSVP) ≠
      ⟨s.nextRsvpId + 1, event_id, name2, email2, t2⟩ ∧
    get_rsvp_status
      (create_rsvp (create_rsvp s event_id name1 email1 t1).2 event_id name2 email2 t2).2
      event_id email1 =
      .ok ⟨s.nextRsvpId, event_id, name1, email1, t1⟩ := by
  have hev' : s.events.find? (fun ev => ev.id == event_id) = some e := hev
  have h1' : s.rsvps.find?
      (fun r => r.event_id == event_id && r.email == email1) = none := h1
  have h2' : s.rsvps.find?
      (fun r => r.event_id == event_id && r.email == email2) = none := h2
  have hne' : email2 ≠ email1 := fun hx => hne hx.symm
  have hev2 : findEvent
      ⟨s.events, s.rsvps ++ [⟨s.nextRsvpId, event_id, name1, email1, t1⟩],
        s.nextEventId, s.nextRsvpId + 1⟩ event_id = some e := hev
  have hfind2 : findRSVP
      ⟨s.events, s.rsvps ++ [⟨s.nextRsvpId, event_id, name1, email1, t1⟩],
        s.nextEventId, s.nextRsvpId + 1⟩ event_id email2 = none := by
    unfold findRSVP
    dsimp only
    rw [List.find?_append, h2']
    simp [hne]
  rw [create_rsvp_success s event_id name1 email1 t1 e hev h1]
  refine ⟨rfl, ?_, ?_, ?_⟩
  · dsimp only
    rw [create_rsvp_success _ event_id name2 email2 t2 e hev2 hfind2]
  · intro hx
    have hx' := congrArg RSVP.id hx
    dsimp only at hx'
    omega
  · dsimp only
    rw [create_rsvp_success _ event_id name2 email2 t2 e hev2 hfind2]
    unfold get_rsvp_status findEvent findRSVP
    dsimp only
    rw [hev']
    simp [List.find?_append, h1', hne, hne']

/-- Witness for C10 at `store1` with two emails differing only in case. -/
theorem C10_email_case_sensitive_witness :
    (create_rsvp store1 1 "Alice" "Alice@mail.com" now1).1 =
      .ok ⟨store1.nextRsvpId, 1, "Alice", "Alice@mail.com", now1⟩ ∧
    (create_rsvp (create_rsvp store1 1 "Alice" "Alice@mail.com" now1).2 1 "Alice"
        "alice@mail.com" now1).1 =
      .ok ⟨store1.nextRsvpId + 1, 1, "Alice", "alice@mail.com", now1⟩ ∧
    (⟨store1.nextRsvpId, 1, "Alice", "Alice@mail.com", now1⟩ : RSVP) ≠
      ⟨store1.nextRsvpId + 1, 1, "Alice", "alice@mail.com", now1⟩ ∧
    get_rsvp_status
      (create_rsvp (create_rsvp store1 1 "Alice" "Alice@mail.com" now1).2 1 "Alice"
        "alice@mail.com" now1).2 1 "Alice@mail.com" =
      .ok ⟨store1.nextRsvpId, 1, "Alice", "Alice@mail.com", now1⟩ :=
  C10_email_case_sensitive store1 1
    ⟨1, "Launch", "Opening party", ⟨2025, 6, 1, 18, 0⟩, "Lagos", none, now0⟩ (by decide)
    "Alice@mail.com" "alice@mail.com" (by decide) (by decide) (by decide)
    "Alice" "Alice" now1 now1

end EventApp
